import Mathlib

/-!
Shallow embedding of the `bubble-project` static file server.

The repository holds two near-identical Python scripts, `src/index.py` and
`src/server.py`.  Each subclasses `http.server.SimpleHTTPRequestHandler`,
overriding `do_GET` to rewrite the path `/` to `/index.html`; `index.py`
additionally overrides `end_headers` to append three cache-disabling headers
to every response.  Each script then binds a `socketserver.TCPServer` on all
interfaces at port 3000, prints a startup line (two lines in `server.py`),
and serves forever.

The wrapper code (path rewrite, header injection, bootstrap) is embedded
directly from the source.  The base static-file resolution behaviour lives in
the Python standard library, not in this repository, so it is modelled from
the specification's description of it (section 4.1 of the spec); such
definitions carry a doc comment starting with `Modelled from the spec:`.
-/

/-! ### Generic string helpers -/

/-- `leadsWith pat l` decides whether the character list `l` starts with `pat`. -/
def leadsWith : List Char → List Char → Bool
  | [], _ => true
  | _ :: _, [] => false
  | a :: as, b :: bs => a == b && leadsWith as bs

/-- `occursIn pat l` decides whether `pat` occurs as a contiguous run inside `l`. -/
def occursIn (pat : List Char) : List Char → Bool
  | [] => pat.isEmpty
  | c :: rest => leadsWith pat (c :: rest) || occursIn pat rest

/-- `strContains s pat` decides whether the string `pat` occurs as a substring of `s`. -/
def strContains (s pat : String) : Bool :=
  occursIn pat.data s.data

/-- `endsWithStr s suf` decides whether `s` ends with the suffix `suf`. -/
def endsWithStr (s suf : String) : Bool :=
  leadsWith suf.data.reverse s.data.reverse

/-! ### Data model: requests, responses, document root -/

/-- An HTTP request method: `GET`, `HEAD`, or anything else. -/
inductive Method where
  | get
  | head
  | other (name : String)
deriving DecidableEq

/-- An inbound HTTP request: a method and a raw request target (the spec's
"path", which for `BaseHTTPRequestHandler` includes any query string). -/
structure Request where
  method : Method
  path : String
deriving DecidableEq

/-- A response: status code, header lines in the order they are sent, body bytes. -/
structure Response where
  status : Nat
  headers : List (String × String)
  body : String
deriving DecidableEq

/-- The document root: the files (absolute server paths mapped to contents) and
the directories reachable under it.  Only entries under the root are
representable, mirroring the glossary's "paths outside it must be unreachable". -/
structure DocRoot where
  files : List (String × String)
  dirs : List String
deriving DecidableEq

/-- Look up a served file by its absolute server path. -/
def DocRoot.lookupFile (fs : DocRoot) (p : String) : Option String :=
  fs.files.lookup p

/-- Whether an absolute server path names a directory under the root. -/
def DocRoot.isDir (fs : DocRoot) (p : String) : Bool :=
  fs.dirs.contains p

/-! ### Base static-file resolution (modelled from the spec) -/

/-- Modelled from the spec: the standard-library resolver drops the query
string and fragment from the raw request target before mapping it to the
filesystem (the `SimpleHTTPRequestHandler` path translation is not part of
this repository's sources). -/
def stripQuery (p : String) : String :=
  String.mk (p.data.takeWhile (fun c => !(c == '?') && !(c == '#')))

/-- The `/`-separated segments of a character list, accumulating the current
segment in reverse. -/
def pathSegs (cur : List Char) : List Char → List (List Char)
  | [] => [cur.reverse]
  | c :: rest => if c == '/' then cur.reverse :: pathSegs [] rest else pathSegs (c :: cur) rest

/-- Modelled from the spec: a path "attempts to escape the document root via
path traversal segments" when one of its `/`-separated segments is `..`. -/
def hasTraversal (p : String) : Bool :=
  (pathSegs [] p.data).contains ['.', '.']

/-- Modelled from the spec: "a content-type inferred from file extension". -/
def contentTypeFor (p : String) : String :=
  if endsWithStr p ".html" then "text/html"
  else if endsWithStr p ".css" then "text/css"
  else if endsWithStr p ".js" then "text/javascript"
  else if endsWithStr p ".txt" then "text/plain"
  else "application/octet-stream"

/-- Modelled from the spec: the base behaviour sets a content-type header and a
content-length header on each response it produces. -/
def baseHeadersFor (ct : String) (body : String) : List (String × String) :=
  [("Content-type", ct), ("Content-Length", toString body.length)]

/-- Modelled from the spec: the body of the standard error page sent with a 404. -/
def notFoundBody : String := "404 Not Found"

/-- Modelled from the spec: "respond 404" for unresolvable paths; the base
behaviour serves its error page with an HTML content type. -/
def notFoundResponse : Response :=
  ⟨404, baseHeadersFor "text/html" notFoundBody, notFoundBody⟩

/-- Modelled from the spec: the body of the error page for unhandled methods. -/
def notImplementedBody : String := "501 Unsupported method"

/-- Modelled from the spec: "requests using other methods receive whatever
default behavior (typically 501 Not Implemented) the underlying primitive
provides". -/
def notImplementedResponse : Response :=
  ⟨501, baseHeadersFor "text/html" notImplementedBody, notImplementedBody⟩

/-- The server path of the index file contained in directory `p`. -/
def dirIndexPath (p : String) : String :=
  if p = "/" then "/index.html" else p ++ "/index.html"

/-- Modelled from the spec: the generated directory listing page (its exact
content is the underlying primitive's own policy; only its existence matters). -/
def directoryListing (fs : DocRoot) (p : String) : String :=
  "Directory listing for " ++ p ++ ": " ++ String.intercalate ", " (fs.files.map Prod.fst)

/-- Modelled from the spec: "If the path resolves to a directory: either serve
a contained `index.html` (if present) or produce a directory listing". -/
def serveDirectory (fs : DocRoot) (p : String) : Response :=
  match fs.lookupFile (dirIndexPath p) with
  | some body => ⟨200, baseHeadersFor "text/html" body, body⟩
  | none =>
      let listing := directoryListing fs p
      ⟨200, baseHeadersFor "text/html" listing, listing⟩

/-- Modelled from the spec: the default static-file resolution behaviour
(section 4.1).  Traversal paths are rejected with 404; directories are served
by `serveDirectory`; existing files are served with 200, inferred
content-type and content-length; everything else gets 404. -/
def resolve (fs : DocRoot) (rawPath : String) : Response :=
  let p := stripQuery rawPath
  if hasTraversal p then notFoundResponse
  else if fs.isDir p then serveDirectory fs p
  else
    match fs.lookupFile p with
    | some body => ⟨200, baseHeadersFor (contentTypeFor p) body, body⟩
    | none => notFoundResponse

/-! ### The two scripts -/

/-- The behaviour of one script: its `do_GET` path rewrite, the extra headers
its `end_headers` override appends, its startup lines, and its port. -/
structure Script where
  rewrite : String → String
  extraHeaders : List (String × String)
  startupLines : List String
  port : Nat

/-- The response computed by the base handler for a request, given the
script's `do_GET` rewrite.  Only `do_GET` is overridden, so only `GET`
requests see the rewrite; `HEAD` is the inherited `do_HEAD` (same resolution,
empty body); other methods get the default 501. -/
def baseRespond (rw : String → String) (fs : DocRoot) (m : Method) (p : String) : Response :=
  match m with
  | .get => resolve fs (rw p)
  | .head =>
      let r := resolve fs p
      { r with body := "" }
  | .other _ => notImplementedResponse

/-- The full response a script sends: the base response, with the script's
`end_headers` extra headers appended after every header the base set. -/
def respond (s : Script) (fs : DocRoot) (m : Method) (p : String) : Response :=
  let b := baseRespond s.rewrite fs m p
  { b with headers := b.headers ++ s.extraHeaders }

/-- The responses to a sequence of requests: each request is handled
independently and receives exactly one response. -/
def serveAll (s : Script) (fs : DocRoot) (reqs : List Request) : List Response :=
  reqs.map (fun r => respond s fs r.method r.path)

namespace IndexPy

/-- The port constant of src/index.py line 18. -/
def PORT : Nat := 3000

/-- The `do_GET` override of src/index.py lines 13-16: rewrite the path `/`
to `/index.html`, pass every other path through unmodified. -/
def do_GET_path (p : String) : String :=
  if p = "/" then "/index.html" else p

/-- The three headers the `end_headers` override of src/index.py lines 7-11
appends (in this order) before delegating to the base `end_headers`. -/
def end_headers_extra : List (String × String) :=
  [("Cache-Control", "no-cache, no-store, must-revalidate"),
   ("Pragma", "no-cache"),
   ("Expires", "0")]

/-- The startup line printed by src/index.py line 21. -/
def serverLine : String :=
  "Server running at http://localhost:" ++ toString PORT ++ "/"

/-- The startup output of src/index.py: a single line. -/
def startupLines : List String := [serverLine]

/-- The behaviour of src/index.py as a whole. -/
def script : Script :=
  ⟨do_GET_path, end_headers_extra, startupLines, PORT⟩

end IndexPy

namespace ServerPy

/-- The port constant of src/server.py line 12. -/
def PORT : Nat := 3000

/-- The `do_GET` override of src/server.py lines 7-10: rewrite the path `/`
to `/index.html`, pass every other path through unmodified. -/
def do_GET_path (p : String) : String :=
  if p = "/" then "/index.html" else p

/-- The first startup line printed by src/server.py line 15. -/
def serverLine : String :=
  "Server running at http://localhost:" ++ toString PORT ++ "/"

/-- The second startup line printed by src/server.py line 16. -/
def noticeLine : String :=
  "This will automatically serve index.html for the root path"

/-- The startup output of src/server.py: two lines. -/
def startupLines : List String := [serverLine, noticeLine]

/-- The behaviour of src/server.py as a whole: no `end_headers` override, so
no extra headers. -/
def script : Script :=
  ⟨do_GET_path, [], startupLines, PORT⟩

end ServerPy

/-! ### Bootstrap -/

/-- An observable startup event: binding the listening socket, printing a
line to standard output, or entering the accept loop. -/
inductive Event where
  | bind (host : String) (port : Nat)
  | print (line : String)
  | serveForever
deriving DecidableEq

/-- Running a script's bootstrap given the outcome of binding the socket.
The `with socketserver.TCPServer(("", PORT), ...)` header runs first; if it
raises, the exception propagates unchanged (no retry, no alternate port) and
the body — the prints and `serve_forever()` — never runs. -/
def runScript (s : Script) (bindResult : Except String Unit) : Except String (List Event) :=
  match bindResult with
  | .error e => .error e
  | .ok _ => .ok ([Event.bind "" s.port] ++ s.startupLines.map Event.print ++ [Event.serveForever])

/-- The startup events of src/index.py when the bind succeeds. -/
def IndexPy.events : List Event :=
  [.bind "" IndexPy.PORT, .print IndexPy.serverLine, .serveForever]

/-- The startup events of src/server.py when the bind succeeds. -/
def ServerPy.events : List Event :=
  [.bind "" ServerPy.PORT, .print ServerPy.serverLine, .print ServerPy.noticeLine, .serveForever]

/-- Whether the event list prints a line containing `sub` strictly before the
first entry into the accept loop. -/
def printsBeforeServe (evs : List Event) (sub : String) : Bool :=
  match evs with
  | [] => false
  | .serveForever :: _ => false
  | .print l :: rest => strContains l sub || printsBeforeServe rest sub
  | .bind _ _ :: rest => printsBeforeServe rest sub

/-! ### Claims -/

/-- C1: for every inbound GET request, the handler rewrites the path `/` to
`/index.html` before delegating to the static-file resolution and passes all
other paths through unmodified; consequently, when `index.html` exists under
the document root, the response (status and body) to GET `/` equals the
response to GET `/index.html`, in both scripts. -/
theorem c1_root_rewritten_to_index (fs : DocRoot) (b : String)
    (_hidx : fs.lookupFile "/index.html" = some b) :
    IndexPy.do_GET_path "/" = "/index.html" ∧ ServerPy.do_GET_path "/" = "/index.html" ∧
    (∀ p, p ≠ "/" → IndexPy.do_GET_path p = p ∧ ServerPy.do_GET_path p = p) ∧
    (respond IndexPy.script fs .get "/").status
      = (respond IndexPy.script fs .get "/index.html").status ∧
    (respond IndexPy.script fs .get "/").body
      = (respond IndexPy.script fs .get "/index.html").body ∧
    (respond ServerPy.script fs .get "/").status
      = (respond ServerPy.script fs .get "/index.html").status ∧
    (respond ServerPy.script fs .get "/").body
      = (respond ServerPy.script fs .get "/index.html").body := by
  refine ⟨rfl, rfl, ?_, rfl, rfl, rfl, rfl⟩
  intro p hp
  constructor <;> simp [IndexPy.do_GET_path, ServerPy.do_GET_path, hp]

/-- Witness for C1 at a concrete document root holding `/index.html`. -/
theorem c1_witness :
    (respond IndexPy.script ⟨[("/index.html", "<h1>Hi</h1>")], ["/"]⟩ .get "/").body
      = (respond IndexPy.script ⟨[("/index.html", "<h1>Hi</h1>")], ["/"]⟩ .get "/index.html").body :=
  (c1_root_rewritten_to_index ⟨[("/index.html", "<h1>Hi</h1>")], ["/"]⟩ "<h1>Hi</h1>"
    (by decide)).2.2.2.2.1

/-- C2: in src/index.py, every response, for any request path, method and
status, includes all three cache-disabling headers. -/
theorem c2_cache_headers_on_every_response (fs : DocRoot) (m : Method) (p : String) :
    ("Cache-Control", "no-cache, no-store, must-revalidate") ∈ (respond IndexPy.script fs m p).headers ∧
    ("Pragma", "no-cache") ∈ (respond IndexPy.script fs m p).headers ∧
    ("Expires", "0") ∈ (respond IndexPy.script fs m p).headers := by
  have h : (respond IndexPy.script fs m p).headers
      = (baseRespond IndexPy.do_GET_path fs m p).headers ++ IndexPy.end_headers_extra := rfl
  refine ⟨?_, ?_, ?_⟩ <;>
    · rw [h]
      exact List.mem_append_right _ (by simp [IndexPy.end_headers_extra])

/-- C3: in src/index.py, the three injected headers come after every header
the base static-file resolution already set, for every response: the header
block is exactly the base headers followed by the cache triplet. -/
theorem c3_cache_headers_last (fs : DocRoot) (m : Method) (p : String) :
    (respond IndexPy.script fs m p).headers
      = (baseRespond IndexPy.do_GET_path fs m p).headers ++
        [("Cache-Control", "no-cache, no-store, must-revalidate"),
         ("Pragma", "no-cache"), ("Expires", "0")] := rfl

/-- C4: a GET request whose path carries a traversal segment is rejected with
404 and its body is the fixed error page, never the contents of a file, in
both scripts. -/
theorem c4_traversal_rejected (fs : DocRoot) (p : String)
    (h : hasTraversal (stripQuery p) = true) :
    (respond IndexPy.script fs .get p).status = 404 ∧
    (respond IndexPy.script fs .get p).body = notFoundBody ∧
    (respond ServerPy.script fs .get p).status = 404 ∧
    (respond ServerPy.script fs .get p).body = notFoundBody := by
  have hp : p ≠ "/" := by
    intro e
    rw [e] at h
    exact absurd h (by decide)
  have hrw : IndexPy.do_GET_path p = p := by simp [IndexPy.do_GET_path, hp]
  have hrw2 : ServerPy.do_GET_path p = p := by simp [ServerPy.do_GET_path, hp]
  have hres : resolve fs p = notFoundResponse := by
    unfold resolve
    simp [h]
  refine ⟨?_, ?_, ?_, ?_⟩ <;>
    simp [respond, baseRespond, IndexPy.script, ServerPy.script, hrw, hrw2, hres,
      notFoundResponse]

/-- Witness for C4 at the traversal path `/../secret.txt`. -/
theorem c4_witness :
    (respond IndexPy.script ⟨[("/index.html", "<h1>Hi</h1>")], ["/"]⟩ .get "/../secret.txt").status
      = 404 :=
  (c4_traversal_rejected ⟨[("/index.html", "<h1>Hi</h1>")], ["/"]⟩ "/../secret.txt"
    (by decide)).1

/-- C5: a GET request whose (rewritten, query-stripped) path names neither a
file nor a directory under the document root gets status 404 in both scripts,
and the failure is confined to that request: every request in any sequence
still receives exactly one response. -/
theorem c5_missing_file_404_nonfatal (fs : DocRoot) (p : String)
    (hfile : fs.lookupFile (stripQuery (IndexPy.do_GET_path p)) = none)
    (hdir : fs.isDir (stripQuery (IndexPy.do_GET_path p)) = false) :
    (respond IndexPy.script fs .get p).status = 404 ∧
    (respond ServerPy.script fs .get p).status = 404 ∧
    ∀ reqs : List Request,
      (serveAll IndexPy.script fs reqs).length = reqs.length ∧
      (serveAll ServerPy.script fs reqs).length = reqs.length := by
  have hres : resolve fs (IndexPy.do_GET_path p) = notFoundResponse := by
    unfold resolve
    by_cases htr : hasTraversal (stripQuery (IndexPy.do_GET_path p)) = true
    · simp [htr]
    · simp only [Bool.not_eq_true] at htr
      simp [htr, hdir, hfile]
  have hsv : ServerPy.do_GET_path = IndexPy.do_GET_path := rfl
  refine ⟨?_, ?_, ?_⟩
  · simp [respond, baseRespond, IndexPy.script, hres, notFoundResponse]
  · simp [respond, baseRespond, ServerPy.script, hsv, hres, notFoundResponse]
  · intro reqs
    constructor <;> simp [serveAll]

/-- Witness for C5 at a concrete missing path. -/
theorem c5_witness :
    (respond IndexPy.script ⟨[("/index.html", "<h1>Hi</h1>")], ["/"]⟩ .get "/missing.html").status
      = 404 :=
  (c5_missing_file_404_nonfatal ⟨[("/index.html", "<h1>Hi</h1>")], ["/"]⟩ "/missing.html"
    (by decide) (by decide)).1

/-- C6: the two scripts are observationally equivalent on every request up to
exactly two differences: index.py appends the cache triplet to every
response's headers, and server.py prints one extra startup line; statuses and
bodies always agree. -/
theorem c6_scripts_equivalent (fs : DocRoot) (m : Method) (p : String) :
    (respond IndexPy.script fs m p).status = (respond ServerPy.script fs m p).status ∧
    (respond IndexPy.script fs m p).body = (respond ServerPy.script fs m p).body ∧
    (respond IndexPy.script fs m p).headers
      = (respond ServerPy.script fs m p).headers ++ IndexPy.end_headers_extra ∧
    ServerPy.startupLines = IndexPy.startupLines ++ [ServerPy.noticeLine] := by
  have hsrv : (respond ServerPy.script fs m p).headers
      = (baseRespond IndexPy.do_GET_path fs m p).headers := by
    show (baseRespond ServerPy.do_GET_path fs m p).headers ++ [] = _
    rw [List.append_nil]
    exact rfl
  refine ⟨rfl, rfl, ?_, rfl⟩
  rw [hsrv]
  rfl

/-- C7: if binding the listening socket fails, the bootstrap of either script
propagates the diagnostic unchanged: no retry, no alternate-port fallback, no
startup event, and the serving loop is never reached. -/
theorem c7_bind_failure_fatal (e : String) :
    runScript IndexPy.script (.error e) = .error e ∧
    runScript ServerPy.script (.error e) = .error e :=
  ⟨rfl, rfl⟩

/-- C8: both scripts bind on all interfaces (empty host) at the constant port
3000 as their first startup event, and print a line containing the substring
`http://localhost:3000/` before entering the accept loop. -/
theorem c8_startup_banner_before_serving :
    IndexPy.PORT = 3000 ∧ ServerPy.PORT = 3000 ∧
    runScript IndexPy.script (.ok ()) = .ok IndexPy.events ∧
    runScript ServerPy.script (.ok ()) = .ok ServerPy.events ∧
    IndexPy.events.head? = some (.bind "" 3000) ∧
    ServerPy.events.head? = some (.bind "" 3000) ∧
    printsBeforeServe IndexPy.events "http://localhost:3000/" = true ∧
    printsBeforeServe ServerPy.events "http://localhost:3000/" = true := by
  refine ⟨rfl, rfl, rfl, rfl, rfl, rfl, ?_, ?_⟩ <;> decide

/-- C9: the root rewrite fires only on exact equality with `/`: a target that
is `/` followed by a query string (query-stripped path `/`, but not `/`
itself) is not rewritten in either script, and is resolved against the
document root directory itself rather than against `/index.html`. -/
theorem c9_query_string_not_rewritten (fs : DocRoot) (p : String)
    (hq : stripQuery p = "/") (hne : p ≠ "/") (hroot : fs.isDir "/" = true) :
    IndexPy.do_GET_path p = p ∧ ServerPy.do_GET_path p = p ∧
    baseRespond IndexPy.do_GET_path fs .get p = serveDirectory fs "/" ∧
    baseRespond ServerPy.do_GET_path fs .get p = serveDirectory fs "/" := by
  have h1 : IndexPy.do_GET_path p = p := by simp [IndexPy.do_GET_path, hne]
  have h2 : ServerPy.do_GET_path p = p := by simp [ServerPy.do_GET_path, hne]
  have hres : resolve fs p = serveDirectory fs "/" := by
    unfold resolve
    rw [hq]
    simp [show hasTraversal "/" = false from by decide, hroot]
  refine ⟨h1, h2, ?_, ?_⟩
  · show resolve fs (IndexPy.do_GET_path p) = serveDirectory fs "/"
    rw [h1]
    exact hres
  · show resolve fs (ServerPy.do_GET_path p) = serveDirectory fs "/"
    rw [h2]
    exact hres

/-- Witness for C9 at the concrete target `/?x=1`. -/
theorem c9_witness :
    IndexPy.do_GET_path "/?x=1" = "/?x=1" :=
  (c9_query_string_not_rewritten ⟨[("/index.html", "<h1>Hi</h1>")], ["/"]⟩ "/?x=1"
    (by decide) (by decide) (by decide)).1

/-- C10: only `do_GET` is overridden, so a HEAD request for `/` is not
rewritten and resolves as the root directory (same headers as the directory
response, empty body); on a root without `index.html` its response headers
differ from those of GET `/`, in both scripts. -/
theorem c10_head_not_rewritten (fs : DocRoot) (hroot : fs.isDir "/" = true) :
    baseRespond IndexPy.do_GET_path fs .head "/" = { serveDirectory fs "/" with body := "" } ∧
    (respond IndexPy.script ⟨[], ["/"]⟩ .head "/").headers
      ≠ (respond IndexPy.script ⟨[], ["/"]⟩ .get "/").headers ∧
    (respond ServerPy.script ⟨[], ["/"]⟩ .head "/").headers
      ≠ (respond ServerPy.script ⟨[], ["/"]⟩ .get "/").headers := by
  have hres : resolve fs "/" = serveDirectory fs "/" := by
    unfold resolve
    simp [show stripQuery "/" = "/" from by decide,
      show hasTraversal "/" = false from by decide, hroot]
  refine ⟨?_, ?_, ?_⟩
  · show { resolve fs "/" with body := "" } = _
    rw [hres]
  · decide
  · decide

/-- Witness for C10 at a root directory with no `index.html`. -/
theorem c10_witness :
    baseRespond IndexPy.do_GET_path ⟨[], ["/"]⟩ .head "/"
      = { serveDirectory ⟨[], ["/"]⟩ "/" with body := "" } :=
  (c10_head_not_rewritten ⟨[], ["/"]⟩ (by decide)).1
